import Mathlib

/-! Shallow embedding of the Portainer API client core (src/client.ts):
the request lifecycle with error classification, the write-operation gate,
the log-tail clamp, the name-based stack lookup, and the Docker
log-stream demultiplexer. Byte buffers are modelled as lists of byte
values; strings that only carry byte content are kept at the byte level,
so the UTF-8 decoding step is the identity on the modelled content. -/

/-- Classified error thrown by the client (class PortainerClientError,
client.ts lines 17-26): a human-readable message, a machine-readable
code, and an optional HTTP status. -/
structure PortainerClientError where
  message : String
  code : String
  statusCode : Option Nat
deriving DecidableEq

/-- Client configuration fixed at construction (client.ts lines 28-37):
normalized base URL, API key, and the write-enable flag. -/
structure ClientConfig where
  baseUrl : String
  apiKey : String
  writeEnabled : Bool
deriving DecidableEq

/-- Parsed JSON value abstracted by the only two fields the client ever
reads from it (parsed.message and parsed.details); a field is `some s`
exactly when it is present and truthy in the parsed value. -/
structure JsonVal where
  message : Option String
  details : Option String
deriving DecidableEq

/-- Outcome of JSON.parse applied to a body text: a parsed value, or a
SyntaxError carrying its message. -/
inductive JsonParseResult where
  | ok (v : JsonVal)
  | err (msg : String)
deriving DecidableEq

/-- Body of an HTTP response: its text, and what JSON.parse does on that
text. -/
structure RespBody where
  text : String
  json : JsonParseResult
deriving DecidableEq

/-- What the single fetch call of one request() does: a response with a
status and body, an abort (the cancellation timer fired), or a
network-level failure thrown by fetch. The request body and headers only
shape the outgoing call, which this outcome type abstracts. -/
inductive FetchOutcome where
  | response (status : Nat) (body : RespBody)
  | abort
  | networkFailure (msg : String)
deriving DecidableEq

/-- Response.ok of the fetch API: status in the inclusive range 200..299. -/
def fetchOk (status : Nat) : Bool := 200 ≤ status && status ≤ 299

/-- Exception that can arise inside the try block of request(): a thrown
PortainerClientError, an AbortError, a fetch TypeError (network failure),
or a SyntaxError from JSON.parse. -/
inductive JsError where
  | classified (e : PortainerClientError)
  | abortError
  | fetchError (msg : String)
  | syntaxError (msg : String)
deriving DecidableEq

/-- Textual rendering of a JS error value when interpolated into a
template literal. -/
def jsErrorToString : JsError → String
  | .classified e => "PortainerClientError: " ++ e.message
  | .abortError => "AbortError: This operation was aborted"
  | .fetchError m => "TypeError: " ++ m
  | .syntaxError m => "SyntaxError: " ++ m

/-- Value produced by a successful request() (client.ts lines 89-92): the
empty-object sentinel for an empty body, the raw text in raw mode, or the
JSON-decoded value. -/
inductive ReqValue where
  | emptyObj
  | rawText (s : String)
  | jsonVal (v : JsonVal)
deriving DecidableEq

/-- Error-message classification for a non-ok response (client.ts lines
63-80): fixed messages for 401, 403 and 404; otherwise the message or
details field of the parsed error body, with a swallowed parse failure
falling back to the generic default. -/
def classifyErrorMessage (path : String) (status : Nat) (body : RespBody) : String :=
  if status = 401 then "Invalid API key or expired token"
  else if status = 403 then "Insufficient permissions for this operation"
  else if status = 404 then "Resource not found: " ++ path
  else
    match body.json with
    | .ok v =>
      match v.message with
      | some m => m
      | none =>
        match v.details with
        | some d => d
        | none => "Portainer API error: " ++ toString status
    | .err _ => "Portainer API error: " ++ toString status

/-- Body of the try block of request() (client.ts lines 50-92): dispatch
on the fetch outcome, throw a classified HTTP error on a non-ok response,
and decode a success body (empty-object sentinel, raw text, or JSON with
a possible SyntaxError). -/
def tryRequest (path : String) (raw : Bool) (net : FetchOutcome) :
    Except JsError ReqValue :=
  match net with
  | .abort => .error .abortError
  | .networkFailure m => .error (.fetchError m)
  | .response status body =>
    if !(fetchOk status) then
      .error (.classified
        ⟨classifyErrorMessage path status body, "HTTP_" ++ toString status, some status⟩)
    else if body.text = "" then .ok .emptyObj
    else if raw then .ok (.rawText body.text)
    else
      match body.json with
      | .ok v => .ok (.jsonVal v)
      | .err m => .error (.syntaxError m)

/-- Embedded request() (client.ts lines 39-107): run the try body, then the
catch block rethrows PortainerClientError, maps AbortError to TIMEOUT,
and wraps every other exception as CONNECTION_ERROR. -/
def request (cfg : ClientConfig) (method path : String) (timeout : Nat)
    (raw : Bool) (net : FetchOutcome) : Except JsError ReqValue :=
  match tryRequest path raw net with
  | .ok v => .ok v
  | .error (.classified e) => .error (.classified e)
  | .error .abortError =>
    .error (.classified
      ⟨"Request timeout after " ++ toString timeout ++ "ms", "TIMEOUT", none⟩)
  | .error e =>
    .error (.classified
      ⟨"Cannot connect to Portainer at " ++ cfg.baseUrl ++ ": " ++ jsErrorToString e,
        "CONNECTION_ERROR", none⟩)

/-- Error thrown by the write gate when the flag is off. -/
def writeDisabledError : PortainerClientError :=
  ⟨"Write operations disabled. Set PORTAINER_WRITE_ENABLED=true to enable.",
    "WRITE_DISABLED", none⟩

/-- Embedded checkWriteEnabled() (client.ts lines 109-116): synchronous
check of the write-enable flag, before any request construction. -/
def checkWriteEnabled (cfg : ClientConfig) : Except PortainerClientError Unit :=
  if !cfg.writeEnabled then .error writeDisabledError else .ok ()

/-- Hexadecimal digit character for a value below 16. -/
def hexDigit (n : Nat) : Char := if n < 10 then Char.ofNat (48 + n) else Char.ofNat (55 + n)

/-- Percent-encoding of one byte. -/
def percentEncodeByte (b : Nat) : String :=
  String.mk ['%', hexDigit (b / 16), hexDigit (b % 16)]

/-- Characters left unescaped by encodeURIComponent (by byte value). -/
def uriUnreserved (c : Nat) : Bool :=
  (65 ≤ c && c ≤ 90) || (97 ≤ c && c ≤ 122) || (48 ≤ c && c ≤ 57) ||
  c = 45 || c = 95 || c = 46 || c = 33 || c = 126 || c = 42 || c = 39 || c = 40 || c = 41

/-- JS encodeURIComponent: UTF-8 percent-encoding of every byte outside
the unreserved set. -/
def encodeURIComponent (s : String) : String :=
  String.join (s.toUTF8.toList.map (fun b =>
    let n := b.toNat
    if uriUnreserved n then String.mk [Char.ofNat n] else percentEncodeByte n))

/-- Container actions of containerAction (client.ts line 227). -/
inductive ContainerAction where
  | start
  | stop
  | restart
  | kill
  | remove
deriving DecidableEq

/-- Path segment for a container action. -/
def containerActionName : ContainerAction → String
  | .start => "start"
  | .stop => "stop"
  | .restart => "restart"
  | .kill => "kill"
  | .remove => "remove"

/-- Embedded containerAction (client.ts lines 224-241): write gate first,
then DELETE with force for remove, POST for the rest. The second
component counts the network calls issued. -/
def containerAction (cfg : ClientConfig) (envId : Nat) (containerId : String)
    (action : ContainerAction) (net : FetchOutcome) : Except JsError ReqValue × Nat :=
  match checkWriteEnabled cfg with
  | .error e => (.error (.classified e), 0)
  | .ok _ =>
    match action with
    | .remove =>
      (request cfg "DELETE"
        ("/endpoints/" ++ toString envId ++ "/docker/containers/" ++ containerId ++ "?force=true")
        30000 false net, 1)
    | a =>
      (request cfg "POST"
        ("/endpoints/" ++ toString envId ++ "/docker/containers/" ++ containerId ++ "/" ++
          containerActionName a)
        30000 false net, 1)

/-- Stack actions of stackAction (client.ts line 268). -/
inductive StackAction where
  | start
  | stop
deriving DecidableEq

/-- Path segment for a stack action. -/
def stackActionName : StackAction → String
  | .start => "start"
  | .stop => "stop"

/-- Embedded stackAction (client.ts lines 266-272). -/
def stackAction (cfg : ClientConfig) (stackId : Nat) (action : StackAction)
    (net : FetchOutcome) : Except JsError ReqValue × Nat :=
  match checkWriteEnabled cfg with
  | .error e => (.error (.classified e), 0)
  | .ok _ =>
    (request cfg "POST" ("/stacks/" ++ toString stackId ++ "/" ++ stackActionName action)
      30000 false net, 1)

/-- Embedded createStack (client.ts lines 274-293); name, compose content
and env only shape the JSON body, which the fetch outcome abstracts. -/
def createStack (cfg : ClientConfig) (envId : Nat) (name composeContent : String)
    (env : List (String × String)) (net : FetchOutcome) : Except JsError ReqValue × Nat :=
  match checkWriteEnabled cfg with
  | .error e => (.error (.classified e), 0)
  | .ok _ =>
    (request cfg "POST" ("/stacks/create/standalone/string?endpointId=" ++ toString envId)
      30000 false net, 1)

/-- Options of updateStack (client.ts lines 298-303). -/
structure UpdateStackOptions where
  composeContent : Option String
  env : Option (List (String × String))
  prune : Option Bool
  pullImage : Option Bool
deriving DecidableEq

/-- Embedded updateStack (client.ts lines 295-324); the options only shape
the JSON body. -/
def updateStack (cfg : ClientConfig) (stackId envId : Nat)
    (options : UpdateStackOptions) (net : FetchOutcome) : Except JsError ReqValue × Nat :=
  match checkWriteEnabled cfg with
  | .error e => (.error (.classified e), 0)
  | .ok _ =>
    (request cfg "PUT" ("/stacks/" ++ toString stackId ++ "?endpointId=" ++ toString envId)
      30000 false net, 1)

/-- Embedded redeployStack (client.ts lines 326-337). -/
def redeployStack (cfg : ClientConfig) (stackId envId : Nat) (pullImage : Bool)
    (net : FetchOutcome) : Except JsError ReqValue × Nat :=
  match checkWriteEnabled cfg with
  | .error e => (.error (.classified e), 0)
  | .ok _ =>
    (request cfg "PUT"
      ("/stacks/" ++ toString stackId ++ "/git/redeploy?endpointId=" ++ toString envId)
      30000 false net, 1)

/-- Embedded deleteStack (client.ts lines 339-345). -/
def deleteStack (cfg : ClientConfig) (stackId envId : Nat)
    (net : FetchOutcome) : Except JsError ReqValue × Nat :=
  match checkWriteEnabled cfg with
  | .error e => (.error (.classified e), 0)
  | .ok _ =>
    (request cfg "DELETE" ("/stacks/" ++ toString stackId ++ "?endpointId=" ++ toString envId)
      30000 false net, 1)

/-- Embedded pullImage (client.ts lines 355-362): split the image
reference on the first colon, defaulting the tag to latest. -/
def pullImage (cfg : ClientConfig) (envId : Nat) (image : String)
    (net : FetchOutcome) : Except JsError ReqValue × Nat :=
  match checkWriteEnabled cfg with
  | .error e => (.error (.classified e), 0)
  | .ok _ =>
    let parts := image.splitOn ":"
    let fromImage := parts.headD ""
    let tag := parts.getD 1 "latest"
    (request cfg "POST"
      ("/endpoints/" ++ toString envId ++ "/docker/images/create?fromImage=" ++
        encodeURIComponent fromImage ++ "&tag=" ++ encodeURIComponent tag)
      30000 false net, 1)

/-- Embedded removeImage (client.ts lines 364-370). -/
def removeImage (cfg : ClientConfig) (envId : Nat) (imageId : String)
    (net : FetchOutcome) : Except JsError ReqValue × Nat :=
  match checkWriteEnabled cfg with
  | .error e => (.error (.classified e), 0)
  | .ok _ =>
    (request cfg "DELETE"
      ("/endpoints/" ++ toString envId ++ "/docker/images/" ++ encodeURIComponent imageId ++
        "?force=true")
      30000 false net, 1)

/-- Embedded createVolume (client.ts lines 380-387); the name shapes the
JSON body. -/
def createVolume (cfg : ClientConfig) (envId : Nat) (name : String)
    (net : FetchOutcome) : Except JsError ReqValue × Nat :=
  match checkWriteEnabled cfg with
  | .error e => (.error (.classified e), 0)
  | .ok _ =>
    (request cfg "POST" ("/endpoints/" ++ toString envId ++ "/docker/volumes/create")
      30000 false net, 1)

/-- Embedded removeVolume (client.ts lines 389-395). -/
def removeVolume (cfg : ClientConfig) (envId : Nat) (name : String)
    (net : FetchOutcome) : Except JsError ReqValue × Nat :=
  match checkWriteEnabled cfg with
  | .error e => (.error (.classified e), 0)
  | .ok _ =>
    (request cfg "DELETE"
      ("/endpoints/" ++ toString envId ++ "/docker/volumes/" ++ encodeURIComponent name)
      30000 false net, 1)

/-- Embedded createNetwork (client.ts lines 405-420); name and subnet
shape the JSON body. -/
def createNetwork (cfg : ClientConfig) (envId : Nat) (name : String)
    (subnet : Option String) (net : FetchOutcome) : Except JsError ReqValue × Nat :=
  match checkWriteEnabled cfg with
  | .error e => (.error (.classified e), 0)
  | .ok _ =>
    (request cfg "POST" ("/endpoints/" ++ toString envId ++ "/docker/networks/create")
      30000 false net, 1)

/-- Embedded removeNetwork (client.ts lines 422-428). -/
def removeNetwork (cfg : ClientConfig) (envId : Nat) (networkId : String)
    (net : FetchOutcome) : Except JsError ReqValue × Nat :=
  match checkWriteEnabled cfg with
  | .error e => (.error (.classified e), 0)
  | .ok _ =>
    (request cfg "DELETE" ("/endpoints/" ++ toString envId ++ "/docker/networks/" ++ networkId)
      30000 false net, 1)

/-- Stack record of types.ts lines 59-67; the source field Type is
renamed StackType because Type is a Lean keyword. -/
structure PortainerStack where
  Id : Nat
  Name : String
  StackType : Nat
  EndpointId : Nat
  Status : Nat
  CreationDate : Nat
  UpdateDate : Nat
deriving DecidableEq

/-- Embedded getStackByName (client.ts lines 453-460), applied to the
decoded stack collection returned by getStacks(): linear scan for the
first exact name match via Array.prototype.find. -/
def getStackByName (stackList : List PortainerStack) (name : String) :
    Except PortainerClientError PortainerStack :=
  match stackList.find? (fun s => s.Name == name) with
  | some stack => .ok stack
  | none => .error ⟨"Stack not found: " ++ name, "NOT_FOUND", some 404⟩

/-- buffer.readUInt32BE(i): unsigned big-endian 32-bit read at byte
offset i; out-of-range bytes read as 0 (every use in the source is
guarded to be in range). -/
def readUInt32BE (buffer : List Nat) (i : Nat) : Nat :=
  buffer.getD i 0 * 16777216 + buffer.getD (i + 1) 0 * 65536 +
  buffer.getD (i + 2) 0 * 256 + buffer.getD (i + 3) 0

/-- Frame-scanning loop of stripDockerLogHeaders (client.ts lines
202-219), returning the list of decoded chunks; the declared payload size
is readUInt32BE at header offset + 4, and the offset advances by the
8-byte header plus the consumed payload. -/
def demuxChunks (buffer : List Nat) (offset : Nat) : List (List Nat) :=
  if h : offset + 8 ≤ buffer.length then
    if readUInt32BE buffer (offset + 4) = 0 then
      demuxChunks buffer (offset + 8)
    else if offset + 8 + readUInt32BE buffer (offset + 4) > buffer.length then
      [buffer.drop (offset + 8)]
    else
      (buffer.drop (offset + 8)).take (readUInt32BE buffer (offset + 4)) ::
        demuxChunks buffer (offset + 8 + readUInt32BE buffer (offset + 4))
  else []
termination_by buffer.length - offset
decreasing_by
  all_goals omega

/-- Embedded stripDockerLogHeaders (client.ts lines 189-222): empty
buffer passes through as empty, a first byte above 2 means TTY mode with
no framing, otherwise the chunks of the frame-scanning loop are joined.
The result is the byte content of the returned string. -/
def stripDockerLogHeaders (buffer : List Nat) : List Nat :=
  if buffer.length = 0 then []
  else if 2 < buffer.headD 0 then buffer
  else (demuxChunks buffer 0).flatten

/-- Big-endian 4-byte encoding of a payload length. -/
def toBE4 (n : Nat) : List Nat :=
  [n / 16777216 % 256, n / 65536 % 256, n / 256 % 256, n % 256]

/-- Docker multiplexed-stream frame: 1-byte stream tag, 3 bytes padding,
4-byte big-endian payload length, then the payload. -/
def encodeFrame (tag : Nat) (payload : List Nat) : List Nat :=
  tag :: 0 :: 0 :: 0 :: (toBE4 payload.length ++ payload)

/-- Concatenation of encoded frames in wire order. -/
def encodeFrames (frames : List (Nat × List Nat)) : List Nat :=
  (frames.map (fun f => encodeFrame f.1 f.2)).flatten

/-- Bounds-checked big-endian 32-bit read: none exactly when the four
bytes are not all within the buffer (Buffer.readUInt32BE out of range
throws). -/
def readUInt32BEChecked (buffer : List Nat) (i : Nat) : Option Nat :=
  if i + 4 ≤ buffer.length then some (readUInt32BE buffer i) else none

/-- Fuel-indexed frame-scanning loop: none when the fuel runs out or a
header read would be out of bounds; used to state termination and
in-bounds access of the loop. -/
def demuxChunksFuel : Nat → List Nat → Nat → Option (List (List Nat))
  | 0, _, _ => none
  | fuel + 1, buffer, offset =>
    if offset + 8 ≤ buffer.length then
      match readUInt32BEChecked buffer (offset + 4) with
      | none => none
      | some size =>
        if size = 0 then demuxChunksFuel fuel buffer (offset + 8)
        else if offset + 8 + size > buffer.length then some [buffer.drop (offset + 8)]
        else (demuxChunksFuel fuel buffer (offset + 8 + size)).map
          (fun rest => (buffer.drop (offset + 8)).take size :: rest)
    else some []

/-- Fetch outcome of the streaming-log request (client.ts lines 156-175):
a response carries raw bytes read from the array buffer. -/
inductive LogsFetchOutcome where
  | response (status : Nat) (bytes : List Nat)
  | abort
  | networkFailure (msg : String)
deriving DecidableEq

/-- Clamp of the tail parameter (client.ts line 151):
Math.min(Math.max(tail, 1), 10000). -/
def clampTail (tail : Int) : Int := min (max tail 1) 10000

/-- Query URL built by getContainerLogs (client.ts line 152). -/
def getContainerLogsUrl (cfg : ClientConfig) (envId : Nat) (containerId : String)
    (tail : Int) : String :=
  cfg.baseUrl ++ "/api/endpoints/" ++ toString envId ++ "/docker/containers/" ++
    containerId ++ "/logs?stdout=true&stderr=true&tail=" ++ toString (clampTail tail)

/-- Embedded getContainerLogs (client.ts lines 146-187): a non-ok
response throws a classified HTTP error with the fixed logs message; on
success the raw bytes go through stripDockerLogHeaders; an abort maps to
TIMEOUT and any other failure to CONNECTION_ERROR. -/
def getContainerLogs (cfg : ClientConfig) (envId : Nat) (containerId : String)
    (tail : Int) (net : LogsFetchOutcome) : Except JsError (List Nat) :=
  let _url := getContainerLogsUrl cfg envId containerId tail
  match net with
  | .response status bytes =>
    if !(fetchOk status) then
      .error (.classified
        ⟨"Failed to get logs: " ++ toString status, "HTTP_" ++ toString status, some status⟩)
    else .ok (stripDockerLogHeaders bytes)
  | .abort => .error (.classified ⟨"Request timeout after 60000ms", "TIMEOUT", none⟩)
  | .networkFailure m =>
    .error (.classified ⟨"Cannot connect to Portainer: " ++ m, "CONNECTION_ERROR", none⟩)

/-- Clamp to a closed range, written from the spec sentence: values below
the lower bound become the lower bound, values above the upper bound
become the upper bound. -/
def clampSpec (lo hi x : Int) : Int := if x < lo then lo else if x > hi then hi else x

/-- Substring containment used to state message phrases. -/
def strContains (s pat : String) : Bool := decide (pat.toList <:+: s.toList)

/-- Example configuration with writes enabled, used by closed witnesses. -/
def cfgEx : ClientConfig := ⟨"https://portainer.example.com", "key", true⟩

/-- Example configuration with writes disabled, used by closed witnesses. -/
def cfgNoWrite : ClientConfig := ⟨"https://portainer.example.com", "key", false⟩

/-- Example stack record used by closed witnesses. -/
def stackEx : PortainerStack := ⟨1, "web", 2, 1, 1, 0, 0⟩

/-- C7: for every tailLines input to the streaming-log operation, the
effective tail value placed in the request query string equals
clamp(tailLines, 1, 10000): inputs below 1 become 1, inputs above 10000
become 10000, and in-range inputs (including the default 100) pass
through unchanged. -/
theorem tailLines_clamped (tail : Int) :
    clampTail tail = clampSpec 1 10000 tail ∧
    (tail < 1 → clampTail tail = 1) ∧
    (10000 < tail → clampTail tail = 10000) ∧
    (1 ≤ tail → tail ≤ 10000 → clampTail tail = tail) ∧
    (∀ cfg envId containerId,
      getContainerLogsUrl cfg envId containerId tail =
        cfg.baseUrl ++ "/api/endpoints/" ++ toString envId ++ "/docker/containers/" ++
          containerId ++ "/logs?stdout=true&stderr=true&tail=" ++
          toString (clampSpec 1 10000 tail)) := by
  have h : clampTail tail = clampSpec 1 10000 tail := by
    unfold clampTail clampSpec
    split_ifs <;> omega
  refine ⟨h, ?_, ?_, ?_, ?_⟩
  · intro h1
    rw [h]
    unfold clampSpec
    split_ifs <;> omega
  · intro h1
    rw [h]
    unfold clampSpec
    split_ifs <;> omega
  · intro h1 h2
    rw [h]
    unfold clampSpec
    split_ifs <;> omega
  · intro cfg envId containerId
    unfold getContainerLogsUrl
    rw [h]

/-- Witness for C7: concrete inputs below, above, and inside the range. -/
theorem tailLines_clamped_witness :
    ((-5 : Int) < 1 ∧ clampTail (-5) = 1) ∧
    ((10000 : Int) < 50000 ∧ clampTail 50000 = 10000) ∧
    ((1 : Int) ≤ 100 ∧ (100 : Int) ≤ 10000 ∧ clampTail 100 = 100) := by
  refine ⟨⟨by decide, (tailLines_clamped (-5)).2.1 (by decide)⟩,
    ⟨by decide, (tailLines_clamped 50000).2.2.1 (by decide)⟩,
    ⟨by decide, by decide, (tailLines_clamped 100).2.2.2.1 (by decide) (by decide)⟩⟩

/-- C8: the empty buffer yields the empty string immediately, and a
buffer whose first byte is greater than 2 (TTY mode) is returned decoded
but otherwise unmodified, with no frame parsing attempted. -/
theorem demux_empty_and_tty :
    stripDockerLogHeaders [] = [] ∧
    ∀ buffer : List Nat, 2 < buffer.headD 0 → stripDockerLogHeaders buffer = buffer := by
  constructor
  · rfl
  · intro buffer h
    unfold stripDockerLogHeaders
    have hne : ¬ buffer.length = 0 := by
      cases buffer with
      | nil => simp [List.headD] at h
      | cons a l => simp
    rw [if_neg hne, if_pos h]

/-- Witness for C8: a TTY-mode buffer starting with byte 0xFF. -/
theorem demux_empty_and_tty_witness :
    2 < ([255, 72, 105] : List Nat).headD 0 ∧
    stripDockerLogHeaders [255, 72, 105] = [255, 72, 105] :=
  ⟨by decide, demux_empty_and_tty.2 [255, 72, 105] (by decide)⟩

/-- C9: the lookup-by-name operation performs a linear scan for an exact
name match over the fetched collection: with no match it throws a
classified NOT_FOUND error with status 404 whose message carries the
failed name; with an exact match the matching record is returned
unmodified. -/
theorem getStackByName_lookup (stackList : List PortainerStack) (name : String) :
    ((∀ s ∈ stackList, s.Name ≠ name) →
      getStackByName stackList name =
        .error ⟨"Stack not found: " ++ name, "NOT_FOUND", some 404⟩) ∧
    ((∃ s ∈ stackList, s.Name = name) →
      ∃ st, st ∈ stackList ∧ st.Name = name ∧ getStackByName stackList name = .ok st) := by
  constructor
  · intro hno
    unfold getStackByName
    have hfind : stackList.find? (fun s => s.Name == name) = none := by
      rw [List.find?_eq_none]
      intro x hx
      simpa using hno x hx
    rw [hfind]
  · rintro ⟨s, hs, hname⟩
    unfold getStackByName
    cases hfind : stackList.find? (fun s => s.Name == name) with
    | none =>
      rw [List.find?_eq_none] at hfind
      exact absurd hname (by simpa using hfind s hs)
    | some st =>
      refine ⟨st, List.mem_of_find?_eq_some hfind, ?_, rfl⟩
      simpa using List.find?_some hfind

/-- Witness for C9: an empty collection misses, a singleton matches. -/
theorem getStackByName_lookup_witness :
    getStackByName [] "web" = .error ⟨"Stack not found: " ++ "web", "NOT_FOUND", some 404⟩ ∧
    ∃ st, st ∈ [stackEx] ∧ st.Name = "web" ∧ getStackByName [stackEx] "web" = .ok st :=
  ⟨(getStackByName_lookup [] "web").1 (by simp),
    (getStackByName_lookup [stackEx] "web").2 ⟨stackEx, by simp, by rfl⟩⟩

/-- Helper for C10: with fuel exceeding the remaining bytes divided by 8,
the fuel-indexed loop neither exhausts its fuel nor reads out of bounds,
and agrees with the total loop. -/
theorem demuxChunksFuel_adequate :
    ∀ fuel (buffer : List Nat) (offset : Nat), buffer.length - offset < 8 * fuel →
      demuxChunksFuel fuel buffer offset = some (demuxChunks buffer offset) := by
  intro fuel
  induction fuel with
  | zero =>
    intro buffer offset h
    omega
  | succ n ih =>
    intro buffer offset h
    by_cases hg : offset + 8 ≤ buffer.length
    · have hc : readUInt32BEChecked buffer (offset + 4) =
          some (readUInt32BE buffer (offset + 4)) := by
        unfold readUInt32BEChecked
        rw [if_pos (by omega)]
      rw [demuxChunks, dif_pos hg]
      simp only [demuxChunksFuel, if_pos hg, hc]
      by_cases hz : readUInt32BE buffer (offset + 4) = 0
      · rw [if_pos hz, if_pos hz]
        exact ih buffer (offset + 8) (by omega)
      · rw [if_neg hz, if_neg hz]
        by_cases ht : offset + 8 + readUInt32BE buffer (offset + 4) > buffer.length
        · rw [if_pos ht, if_pos ht]
        · rw [if_neg ht, if_neg ht,
            ih buffer (offset + 8 + readUInt32BE buffer (offset + 4)) (by omega)]
          rfl
    · rw [demuxChunks, dif_neg hg]
      simp only [demuxChunksFuel, if_neg hg]

/-- C10: the demultiplexer is total — on every input buffer the
frame-scanning loop terminates within length / 8 + 1 iterations because
the offset strictly increases by at least 8 per iteration, every header
read is in bounds, and a result is returned with no exception. -/
theorem demux_loop_terminates (buffer : List Nat) :
    demuxChunksFuel (buffer.length / 8 + 1) buffer 0 = some (demuxChunks buffer 0) :=
  demuxChunksFuel_adequate (buffer.length / 8 + 1) buffer 0 (by omega)

/-- C1: for every client constructed with the write-enable flag false,
every mutating operation — container start/stop/restart/kill/remove,
stack start/stop/create/update/redeploy/delete, image pull/remove,
volume create/remove, network create/remove — fails with a classified
error of code WRITE_DISABLED and performs zero network calls: the gate is
checked synchronously before any request construction. -/
theorem writeGate_blocks_all_mutations (cfg : ClientConfig)
    (hw : cfg.writeEnabled = false)
    (envId stackId : Nat)
    (containerId name composeContent image imageId networkId subnet : String)
    (cact : ContainerAction) (sact : StackAction)
    (env : List (String × String)) (options : UpdateStackOptions)
    (pull : Bool) (net : FetchOutcome) :
    writeDisabledError.code = "WRITE_DISABLED" ∧
    containerAction cfg envId containerId cact net =
      (.error (.classified writeDisabledError), 0) ∧
    stackAction cfg stackId sact net = (.error (.classified writeDisabledError), 0) ∧
    createStack cfg envId name composeContent env net =
      (.error (.classified writeDisabledError), 0) ∧
    updateStack cfg stackId envId options net = (.error (.classified writeDisabledError), 0) ∧
    redeployStack cfg stackId envId pull net = (.error (.classified writeDisabledError), 0) ∧
    deleteStack cfg stackId envId net = (.error (.classified writeDisabledError), 0) ∧
    pullImage cfg envId image net = (.error (.classified writeDisabledError), 0) ∧
    removeImage cfg envId imageId net = (.error (.classified writeDisabledError), 0) ∧
    createVolume cfg envId name net = (.error (.classified writeDisabledError), 0) ∧
    removeVolume cfg envId name net = (.error (.classified writeDisabledError), 0) ∧
    createNetwork cfg envId name (some subnet) net =
      (.error (.classified writeDisabledError), 0) ∧
    removeNetwork cfg envId networkId net = (.error (.classified writeDisabledError), 0) := by
  have hc : checkWriteEnabled cfg = .error writeDisabledError := by
    unfold checkWriteEnabled
    rw [hw]
    rfl
  refine ⟨rfl, ?_, ?_, ?_, ?_, ?_, ?_, ?_, ?_, ?_, ?_, ?_, ?_⟩ <;>
    simp only [containerAction, stackAction, createStack, updateStack, redeployStack,
      deleteStack, pullImage, removeImage, createVolume, removeVolume, createNetwork,
      removeNetwork, hc]

/-- Witness for C1: a concrete write-disabled client and concrete
arguments for every mutating operation. -/
theorem writeGate_blocks_all_mutations_witness :
    cfgNoWrite.writeEnabled = false ∧
    containerAction cfgNoWrite 1 "abc" .stop (.response 200 ⟨"", .err "e"⟩) =
      (.error (.classified writeDisabledError), 0) ∧
    stackAction cfgNoWrite 2 .start (.response 200 ⟨"", .err "e"⟩) =
      (.error (.classified writeDisabledError), 0) := by
  have h := writeGate_blocks_all_mutations cfgNoWrite rfl 1 2 "abc" "n" "c" "img" "iid" "nid"
    "10.0.0.0/24" .stop .start [] ⟨none, none, none, none⟩ false
    (.response 200 ⟨"", .err "e"⟩)
  exact ⟨rfl, h.2.1, h.2.2.1⟩

/-- HTTP error message mapping written from the spec's words: fixed
phrases for 401, 403 and 404 (the 404 phrase referencing the request
path), else the message field of the parsed body, else its details
field, else a generic fallback. -/
def specHttpMessage (path : String) (status : Nat) (body : RespBody) : String :=
  if status = 401 then "Invalid API key or expired token"
  else if status = 403 then "Insufficient permissions for this operation"
  else if status = 404 then "Resource not found: " ++ path
  else
    match body.json with
    | .ok v =>
      match v.message with
      | some m => m
      | none =>
        match v.details with
        | some d => d
        | none => "Portainer API error: " ++ toString status
    | .err _ => "Portainer API error: " ++ toString status

/-- Example fetch outcome of a successful JSON response, used by closed
witnesses. -/
def netOkEx : FetchOutcome := .response 200 ⟨"[]", .ok ⟨none, none⟩⟩

/-- C5: every request() call either returns a decoded value or throws a
classified error — never an unclassified exception — and a value is only
returned when the fetch produced a success (2xx) response, so no failure
is suppressed or replaced by a silent default. -/
theorem request_classified_outcomes (cfg : ClientConfig) (method path : String)
    (timeout : Nat) (raw : Bool) (net : FetchOutcome) :
    ((∃ v, request cfg method path timeout raw net = .ok v) ∨
      (∃ e, request cfg method path timeout raw net = .error (.classified e))) ∧
    (∀ v, request cfg method path timeout raw net = .ok v →
      ∃ status body, net = .response status body ∧ fetchOk status = true) := by
  constructor
  · unfold request
    cases htry : tryRequest path raw net with
    | ok v => exact .inl ⟨v, rfl⟩
    | error e =>
      cases e with
      | classified e => exact .inr ⟨e, rfl⟩
      | abortError => exact .inr ⟨_, rfl⟩
      | fetchError m => exact .inr ⟨_, rfl⟩
      | syntaxError m => exact .inr ⟨_, rfl⟩
  · intro v hv
    cases net with
    | response status body =>
      refine ⟨status, body, rfl, ?_⟩
      by_cases hok : fetchOk status = true
      · exact hok
      · have hok' : fetchOk status = false := by
          cases h2 : fetchOk status
          · rfl
          · exact absurd h2 hok
        simp [request, tryRequest, hok'] at hv
    | abort => simp [request, tryRequest] at hv
    | networkFailure m => simp [request, tryRequest] at hv

/-- Witness for C5: a concrete successful JSON request. -/
theorem request_classified_outcomes_witness :
    ((∃ v, request cfgEx "GET" "/stacks" 30000 false netOkEx = .ok v) ∨
      (∃ e, request cfgEx "GET" "/stacks" 30000 false netOkEx = .error (.classified e))) ∧
    (∃ status body, netOkEx = .response status body ∧ fetchOk status = true) :=
  ⟨(request_classified_outcomes cfgEx "GET" "/stacks" 30000 false netOkEx).1,
    (request_classified_outcomes cfgEx "GET" "/stacks" 30000 false netOkEx).2
      (.jsonVal ⟨none, none⟩) rfl⟩

/-- C3 (amended): for request(), every non-2xx response with status s
throws a classified error with code HTTP_s carrying s, whose message
follows the fixed mapping — the invalid-credential phrase for 401, the
insufficient-permission phrase for 403, a not-found phrase referencing
the request path for 404, else the body's message or details field, else
the generic fallback. The streaming-log fetch also throws HTTP_s
carrying s, but with the fixed message "Failed to get logs: s" for every
status, not the mapped messages. -/
theorem http_error_classification (cfg : ClientConfig) (method path : String)
    (timeout : Nat) (raw : Bool) (status : Nat) (body : RespBody)
    (hnot2xx : fetchOk status = false) :
    (request cfg method path timeout raw (.response status body) =
      .error (.classified
        ⟨classifyErrorMessage path status body, "HTTP_" ++ toString status, some status⟩)) ∧
    (∀ p s b, classifyErrorMessage p s b = specHttpMessage p s b) ∧
    strContains (classifyErrorMessage path 401 body) "Invalid API key" = true ∧
    strContains (classifyErrorMessage path 403 body) "Insufficient permissions" = true ∧
    classifyErrorMessage path 404 body = "Resource not found: " ++ path ∧
    (∀ envId containerId tail bytes,
      getContainerLogs cfg envId containerId tail (.response status bytes) =
        .error (.classified ⟨"Failed to get logs: " ++ toString status,
          "HTTP_" ++ toString status, some status⟩)) := by
  refine ⟨?_, fun p s b => rfl, ?_, ?_, rfl, ?_⟩
  · simp [request, tryRequest, hnot2xx]
  · rw [show classifyErrorMessage path 401 body = "Invalid API key or expired token" from rfl]
    decide
  · rw [show classifyErrorMessage path 403 body =
      "Insufficient permissions for this operation" from rfl]
    decide
  · intro envId containerId tail bytes
    simp [getContainerLogs, hnot2xx]

/-- Witness for C3: a concrete 404 response. -/
theorem http_error_classification_witness :
    fetchOk 404 = false ∧
    request cfgEx "GET" "/endpoints/9" 30000 false (.response 404 ⟨"", .err "e"⟩) =
      .error (.classified ⟨classifyErrorMessage "/endpoints/9" 404 ⟨"", .err "e"⟩,
        "HTTP_" ++ toString 404, some 404⟩) :=
  ⟨rfl, (http_error_classification cfgEx "GET" "/endpoints/9" 30000 false 404
    ⟨"", .err "e"⟩ rfl).1⟩

/-- C3 counterexample: the streaming-log fetch answers a 401 response
with message "Failed to get logs: 401", which contains no
invalid-credential phrase, contradicting the claim that the fixed
mapping holds for every operation including the streaming-log fetch. -/
theorem logs_401_message_lacks_credential_phrase :
    getContainerLogs cfgEx 1 "abc" 100 (.response 401 []) =
      .error (.classified ⟨"Failed to get logs: 401", "HTTP_401", some 401⟩) ∧
    strContains "Failed to get logs: 401" "Invalid" = false ∧
    strContains "Failed to get logs: 401" "credential" = false := by
  refine ⟨rfl, by decide, by decide⟩

/-- C4 (amended): a success response with a non-empty body that is not
valid JSON (rawMode false) does not escape as a generic parse exception:
the SyntaxError from JSON.parse is caught by the outer catch block and
surfaces as a classified error with code CONNECTION_ERROR whose message
wraps the parse error. -/
theorem parse_failure_is_classified (cfg : ClientConfig) (method path : String)
    (timeout : Nat) (status : Nat) (body : RespBody) (msg : String)
    (hok : fetchOk status = true) (hne : body.text ≠ "") (hjson : body.json = .err msg) :
    request cfg method path timeout false (.response status body) =
      .error (.classified
        ⟨"Cannot connect to Portainer at " ++ cfg.baseUrl ++ ": " ++ ("SyntaxError: " ++ msg),
          "CONNECTION_ERROR", none⟩) := by
  simp [request, tryRequest, hok, hne, hjson, jsErrorToString]

/-- Witness for C4: a concrete 200 response whose body fails to parse. -/
theorem parse_failure_is_classified_witness :
    fetchOk 200 = true ∧ ("not json" : String) ≠ "" ∧
    request cfgEx "GET" "/stacks" 30000 false
        (.response 200 ⟨"not json", .err "Unexpected token"⟩) =
      .error (.classified
        ⟨"Cannot connect to Portainer at " ++ cfgEx.baseUrl ++ ": " ++
          ("SyntaxError: " ++ "Unexpected token"), "CONNECTION_ERROR", none⟩) :=
  ⟨rfl, by decide,
    parse_failure_is_classified cfgEx "GET" "/stacks" 30000 200
      ⟨"not json", .err "Unexpected token"⟩ "Unexpected token" rfl (by decide) rfl⟩

/-- C4 counterexample: at a concrete success response with invalid JSON,
request() throws a classified error (code CONNECTION_ERROR), so the
failure does not propagate as an unclassified generic parse exception. -/
theorem parse_failure_counterexample :
    request cfgEx "GET" "/stacks" 30000 false
        (.response 200 ⟨"not json", .err "Unexpected token"⟩) =
      .error (.classified
        ⟨"Cannot connect to Portainer at https://portainer.example.com: SyntaxError: Unexpected token",
          "CONNECTION_ERROR", none⟩) := by
  rfl

/-- Reading past a prefix: getD shifted by the prefix length. -/
theorem getD_append_shift (pre rest : List Nat) (i : Nat) :
    (pre ++ rest).getD (pre.length + i) 0 = rest.getD i 0 := by
  induction pre with
  | nil => simp
  | cons a l ih =>
    rw [List.cons_append, show (a :: l).length + i = (l.length + i) + 1 by simp; omega,
      List.getD_cons_succ, ih]

/-- Dropping past a prefix: drop shifted by the prefix length. -/
theorem drop_append_shift (pre rest : List Nat) (i : Nat) :
    (pre ++ rest).drop (pre.length + i) = rest.drop i := by
  induction pre with
  | nil => simp
  | cons a l ih =>
    rw [List.cons_append, show (a :: l).length + i = (l.length + i) + 1 by simp; omega,
      List.drop_succ_cons, ih]

/-- Taking exactly the first summand of an append. -/
theorem take_len_append (p q : List Nat) : (p ++ q).take p.length = p := by
  induction p with
  | nil => simp
  | cons a l ih => simp [ih]

/-- Big-endian reads are invariant under shifting past a prefix. -/
theorem readUInt32BE_shift (pre rest : List Nat) (i : Nat) :
    readUInt32BE (pre ++ rest) (pre.length + i) = readUInt32BE rest i := by
  unfold readUInt32BE
  rw [show pre.length + i + 1 = pre.length + (i + 1) by omega,
    show pre.length + i + 2 = pre.length + (i + 2) by omega,
    show pre.length + i + 3 = pre.length + (i + 3) by omega,
    getD_append_shift, getD_append_shift, getD_append_shift, getD_append_shift]

/-- Big-endian read at offset 4 of a buffer with four leading bytes. -/
theorem readUInt32BE_cons4 (a b c d : Nat) (l : List Nat) :
    readUInt32BE (a :: b :: c :: d :: l) 4 = readUInt32BE l 0 := rfl

/-- Round trip of the 4-byte big-endian length encoding. -/
theorem readUInt32BE_toBE4 (n : Nat) (l : List Nat) (h : n < 4294967296) :
    readUInt32BE (toBE4 n ++ l) 0 = n := by
  show n / 16777216 % 256 * 16777216 + n / 65536 % 256 * 65536 +
    n / 256 % 256 * 256 + n % 256 = n
  omega

/-- Length of one encoded frame: the 8-byte header plus the payload. -/
theorem encodeFrame_length (tag : Nat) (p : List Nat) :
    (encodeFrame tag p).length = 8 + p.length := by
  simp only [encodeFrame, toBE4, List.length_cons, List.length_append, List.length_nil]
  omega

/-- Frame scanning only looks at the buffer from the offset on: scanning
past a prefix of the buffer equals scanning the suffix from the start. -/
theorem demuxChunks_shift_aux (pre rest : List Nat) :
    ∀ fuel k, rest.length - k ≤ fuel →
      demuxChunks (pre ++ rest) (pre.length + k) = demuxChunks rest k := by
  intro fuel
  induction fuel with
  | zero =>
    intro k hk
    conv_lhs => rw [demuxChunks]
    conv_rhs => rw [demuxChunks]
    rw [dif_neg (by simp only [List.length_append]; omega), dif_neg (by omega)]
  | succ n ih =>
    intro k hk
    conv_lhs => rw [demuxChunks]
    conv_rhs => rw [demuxChunks]
    by_cases hg : k + 8 ≤ rest.length
    · rw [dif_pos (by simp only [List.length_append]; omega), dif_pos hg,
        show pre.length + k + 4 = pre.length + (k + 4) by omega, readUInt32BE_shift]
      by_cases hz : readUInt32BE rest (k + 4) = 0
      · rw [if_pos hz, if_pos hz,
          show pre.length + k + 8 = pre.length + (k + 8) by omega]
        exact ih (k + 8) (by omega)
      · rw [if_neg hz, if_neg hz]
        by_cases htr : k + 8 + readUInt32BE rest (k + 4) > rest.length
        · rw [if_pos (by simp only [List.length_append]; omega), if_pos htr,
            show pre.length + k + 8 = pre.length + (k + 8) by omega, drop_append_shift]
        · rw [if_neg (by simp only [List.length_append]; omega), if_neg htr,
            show pre.length + k + 8 = pre.length + (k + 8) by omega, drop_append_shift,
            show pre.length + (k + 8) + readUInt32BE rest (k + 4) =
              pre.length + (k + 8 + readUInt32BE rest (k + 4)) by omega,
            ih (k + 8 + readUInt32BE rest (k + 4)) (by omega)]
    · rw [dif_neg (by simp only [List.length_append]; omega), dif_neg hg]

/-- Closed form of the shift property. -/
theorem demuxChunks_shift (pre rest : List Nat) (k : Nat) :
    demuxChunks (pre ++ rest) (pre.length + k) = demuxChunks rest k :=
  demuxChunks_shift_aux pre rest rest.length k (by omega)

/-- Scanning a buffer that starts with well-formed encoded frames yields
those frames' payloads followed by whatever the scan of the remainder
yields. -/
theorem demuxChunks_encode_flatten (frames : List (Nat × List Nat)) :
    ∀ rest : List Nat, (∀ f ∈ frames, f.2.length < 4294967296) →
      (demuxChunks (encodeFrames frames ++ rest) 0).flatten =
        (frames.map (fun f => f.2)).flatten ++ (demuxChunks rest 0).flatten := by
  induction frames with
  | nil =>
    intro rest hlen
    simp [encodeFrames]
  | cons f fs ih =>
    intro rest hlen
    obtain ⟨tag, p⟩ := f
    have hp : p.length < 4294967296 := hlen (tag, p) (by simp)
    have hfs : ∀ g ∈ fs, g.2.length < 4294967296 := fun g hg => hlen g (by simp [hg])
    have hbuf : encodeFrames ((tag, p) :: fs) ++ rest =
        encodeFrame tag p ++ (encodeFrames fs ++ rest) := by
      simp [encodeFrames, List.append_assoc]
    rw [hbuf]
    have hXfull : encodeFrame tag p ++ (encodeFrames fs ++ rest) =
        (tag :: 0 :: 0 :: 0 :: toBE4 p.length) ++ (p ++ (encodeFrames fs ++ rest)) := by
      simp [encodeFrame, List.append_assoc]
    have hsize : readUInt32BE (encodeFrame tag p ++ (encodeFrames fs ++ rest)) 4 = p.length := by
      rw [hXfull,
        show (tag :: 0 :: 0 :: 0 :: toBE4 p.length) ++ (p ++ (encodeFrames fs ++ rest)) =
          tag :: 0 :: 0 :: 0 :: (toBE4 p.length ++ (p ++ (encodeFrames fs ++ rest))) by simp,
        readUInt32BE_cons4, readUInt32BE_toBE4 _ _ hp]
    have hlenB : (encodeFrame tag p ++ (encodeFrames fs ++ rest)).length =
        8 + p.length + (encodeFrames fs ++ rest).length := by
      rw [List.length_append, encodeFrame_length]
    conv_lhs => rw [demuxChunks]
    simp only [Nat.zero_add]
    rw [dif_pos (by omega), hsize]
    by_cases hp0 : p.length = 0
    · rw [if_pos hp0]
      have hpnil : p = [] := List.eq_nil_of_length_eq_zero hp0
      subst hpnil
      rw [show (8 : Nat) = (encodeFrame tag []).length + 0 by simp [encodeFrame_length],
        demuxChunks_shift, ih rest hfs]
      simp
    · rw [if_neg hp0, if_neg (by omega)]
      have hdrop : (encodeFrame tag p ++ (encodeFrames fs ++ rest)).drop 8 =
          p ++ (encodeFrames fs ++ rest) := by
        rw [hXfull,
          show (8 : Nat) = (tag :: 0 :: 0 :: 0 :: toBE4 p.length).length + 0 by simp [toBE4],
          drop_append_shift]
        simp
      rw [hdrop, take_len_append]
      rw [hXfull, ← List.append_assoc,
        show 8 + p.length = ((tag :: 0 :: 0 :: 0 :: toBE4 p.length) ++ p).length + 0 by
          simp [toBE4]
          omega
      ]
      rw [demuxChunks_shift, List.flatten_cons, ih rest hfs]
      simp [List.append_assoc]

/-- C2: a buffer whose first byte is at most 2, consisting of complete
8-byte-header frames possibly followed by fewer than 8 trailing bytes,
demultiplexes to the concatenation of all frame payloads in wire order —
stream tags ignored, zero-length frames contributing nothing, and the
sub-8-byte remainder silently dropped without error. -/
theorem demux_complete_frames (frames : List (Nat × List Nat)) (trailer : List Nat)
    (hlen : ∀ f ∈ frames, f.2.length < 4294967296)
    (ht : trailer.length < 8)
    (hfirst : (encodeFrames frames ++ trailer).headD 0 ≤ 2) :
    stripDockerLogHeaders (encodeFrames frames ++ trailer) =
      (frames.map (fun f => f.2)).flatten := by
  unfold stripDockerLogHeaders
  by_cases hb : (encodeFrames frames ++ trailer).length = 0
  · rw [if_pos hb]
    cases frames with
    | nil => simp
    | cons f fs =>
      exfalso
      rw [List.length_append] at hb
      have h1 : (encodeFrames (f :: fs)).length = 0 := by omega
      rw [encodeFrames] at h1
      simp only [List.map_cons, List.flatten_cons, List.length_append,
        encodeFrame_length] at h1
      omega
  · rw [if_neg hb, if_neg (by omega), demuxChunks_encode_flatten frames trailer hlen]
    have htr : demuxChunks trailer 0 = [] := by
      conv_lhs => rw [demuxChunks]
      rw [dif_neg (by omega)]
    rw [htr]
    simp

/-- Witness for C2: frames tagged 1 and 2 with a zero-length frame in the
middle and three trailing bytes. -/
theorem demux_complete_frames_witness :
    (∀ f ∈ [((1 : Nat), [104, 101, 108]), ((2 : Nat), ([] : List Nat)),
      ((2 : Nat), [108, 111])], f.2.length < 4294967296) ∧
    ([9, 9, 9] : List Nat).length < 8 ∧
    (encodeFrames [(1, [104, 101, 108]), (2, []), (2, [108, 111])] ++ [9, 9, 9]).headD 0 ≤ 2 ∧
    stripDockerLogHeaders
        (encodeFrames [(1, [104, 101, 108]), (2, []), (2, [108, 111])] ++ [9, 9, 9]) =
      [104, 101, 108, 108, 111] :=
  ⟨by decide, by decide, by decide,
    (demux_complete_frames [(1, [104, 101, 108]), (2, []), (2, [108, 111])] [9, 9, 9]
      (by decide) (by decide) (by decide)).trans rfl⟩

/-- C6: a buffer of complete frames followed by a header whose declared
payload length exceeds the remaining bytes demultiplexes to the complete
frames' payloads followed by every byte after that header, stops
processing there, and throws no error. -/
theorem demux_truncated_frame (frames : List (Nat × List Nat)) (tag size : Nat)
    (tail : List Nat)
    (hne : frames ≠ [])
    (hlen : ∀ f ∈ frames, f.2.length < 4294967296)
    (hsz : size < 4294967296)
    (hover : tail.length < size)
    (hfirst :
      (encodeFrames frames ++ (tag :: 0 :: 0 :: 0 :: (toBE4 size ++ tail))).headD 0 ≤ 2) :
    stripDockerLogHeaders
        (encodeFrames frames ++ (tag :: 0 :: 0 :: 0 :: (toBE4 size ++ tail))) =
      (frames.map (fun f => f.2)).flatten ++ tail := by
  have hRlen : (tag :: 0 :: 0 :: 0 :: (toBE4 size ++ tail)).length = 8 + tail.length := by
    simp only [List.length_cons, List.length_append, toBE4, List.length_nil]
    omega
  have hread : readUInt32BE (tag :: 0 :: 0 :: 0 :: (toBE4 size ++ tail)) 4 = size := by
    rw [readUInt32BE_cons4, readUInt32BE_toBE4 _ _ hsz]
  have hR : demuxChunks (tag :: 0 :: 0 :: 0 :: (toBE4 size ++ tail)) 0 = [tail] := by
    conv_lhs => rw [demuxChunks]
    simp only [Nat.zero_add]
    rw [dif_pos (by omega), hread, if_neg (by omega), if_pos (by omega)]
    rfl
  have hblen :
      (encodeFrames frames ++ (tag :: 0 :: 0 :: 0 :: (toBE4 size ++ tail))).length ≠ 0 := by
    rw [List.length_append, hRlen]
    omega
  unfold stripDockerLogHeaders
  rw [if_neg hblen, if_neg (by omega),
    demuxChunks_encode_flatten frames _ hlen, hR]
  simp

/-- Witness for C6: one complete frame, then a header declaring 5 payload
bytes with only 2 bytes remaining. -/
theorem demux_truncated_frame_witness :
    ([((1 : Nat), [65])] : List (Nat × List Nat)) ≠ [] ∧
    (∀ f ∈ [((1 : Nat), [65])], f.2.length < 4294967296) ∧
    (5 : Nat) < 4294967296 ∧
    ([66, 67] : List Nat).length < 5 ∧
    (encodeFrames [(1, [65])] ++ (2 :: 0 :: 0 :: 0 :: (toBE4 5 ++ [66, 67]))).headD 0 ≤ 2 ∧
    stripDockerLogHeaders
        (encodeFrames [(1, [65])] ++ (2 :: 0 :: 0 :: 0 :: (toBE4 5 ++ [66, 67]))) =
      [65, 66, 67] :=
  ⟨by decide, by decide, by decide, by decide, by decide,
    (demux_truncated_frame [(1, [65])] 2 5 [66, 67] (by decide) (by decide) (by decide)
      (by decide) (by decide)).trans rfl⟩
